import Mathlib

/-!
Verification development for the StudyCircle peer-learning application.

The definitions below are a shallow embedding of the repository's data model
(`supabase/migrations/*.sql`, `src/unnamed/part_001`), its row-level security
policies, and the client-side operations in `src/pages/QuestionDetail.tsx`,
`src/pages/StudyGroups.tsx`, `src/pages/Profile.tsx` (Profile and GroupDetail),
`src/unnamed/part_004` (Resources) and `src/unnamed/part_000` (the AI
suggestion proxy). Tables are lists of rows; SQL `auth.uid()` is an
`Option UserId` (`none` = anonymous); a SQL comparison with `NULL` is never
true, which the `Option` equality reproduces.
-/

namespace StudyCircle

abbrev UserId := Nat
abbrev QId := Nat
abbrev AId := Nat
abbrev GId := Nat

/-- Enum `difficulty_level` from the first migration. -/
inductive Difficulty
  | easy
  | medium
  | hard
deriving DecidableEq

/-- Enum `group_role` from the first migration. -/
inductive Role
  | admin
  | moderator
  | member
deriving DecidableEq

/-- Enum `privacy_level` from the first migration (`public`, `private`,
`invite_only`; the first two renamed with a trailing underscore because they
are Lean keywords or clash with them). -/
inductive Privacy
  | public_
  | private_
  | invite_only
deriving DecidableEq

/-- Check constraint on `notifications.type` in `src/unnamed/part_001`. -/
inductive NotificationType
  | question_answered
  | answer_accepted
  | group_invitation
  | resource_shared
  | points_earned
deriving DecidableEq

/-- Check constraint on `badges.requirement_type` in `src/unnamed/part_001`. -/
inductive ReqType
  | points
  | questions_asked
  | answers_given
  | answers_accepted
  | resources_shared
deriving DecidableEq

/-- Row of `public.questions`. -/
structure Question where
  id : QId
  user_id : UserId
  title : String
  content : String
  difficulty : Difficulty
  view_count : Nat
  upvotes : Nat
  is_resolved : Bool
deriving DecidableEq

/-- Row of `public.answers`. -/
structure Answer where
  id : AId
  question_id : QId
  user_id : UserId
  content : String
  upvotes : Nat
  downvotes : Nat
  is_accepted : Bool
deriving DecidableEq

/-- Row of `public.profiles`. -/
structure Profile where
  user_id : UserId
  full_name : String
  points : Nat
deriving DecidableEq

/-- Row of `public.study_groups`. -/
structure StudyGroup where
  id : GId
  name : String
  creator_id : UserId
  max_members : Nat
  privacy : Privacy
deriving DecidableEq

/-- Row of `public.group_members` (unique on `(group_id, user_id)`). -/
structure GroupMember where
  group_id : GId
  user_id : UserId
  role : Role
deriving DecidableEq

/-- Row of `public.resources`. -/
structure Resource where
  id : Nat
  user_id : UserId
  title : String
  download_count : Nat
deriving DecidableEq

/-- Row of `public.messages` (`src/unnamed/part_001`); `created_at` is an
abstract timestamp. -/
structure Message where
  id : Nat
  group_id : GId
  user_id : UserId
  content : String
  message_type : String
  created_at : Nat
deriving DecidableEq

/-- Row of `public.notifications` (`src/unnamed/part_001`). -/
structure Notification where
  user_id : UserId
  type : NotificationType
  title : String
  message : String
  related_id : Option Nat
  is_read : Bool
deriving DecidableEq

/-- Row of `public.badges` (`src/unnamed/part_001`). -/
structure Badge where
  name : String
  requirement_type : ReqType
  requirement_value : Nat
deriving DecidableEq

/-- Row of `public.user_badges` (`src/unnamed/part_001`), unique on
`(user_id, badge_id)`. -/
structure UserBadge where
  user_id : UserId
  badge_id : Nat
deriving DecidableEq

/-! ## Row-level security policies

Each policy is the `USING` / `WITH CHECK` SQL predicate of the corresponding
`CREATE POLICY` statement, evaluated for one candidate row. The actor is
`auth.uid()`; `none` models an anonymous request, for which any SQL equality
with `auth.uid()` is not satisfied. -/

/-- Policy "Users can update their own questions": `auth.uid() = user_id`.
This is the only UPDATE policy on `questions`; it governs every column,
`view_count` included. -/
def questionsUpdatePolicy (actor : Option UserId) (row : Question) : Bool :=
  actor == some row.user_id

/-- Policy "Users can update their own answers": `auth.uid() = user_id`.
This is the only UPDATE policy on `answers`; it governs every column,
`upvotes` included. -/
def answersUpdatePolicy (actor : Option UserId) (row : Answer) : Bool :=
  actor == some row.user_id

/-- Policy "Public groups are viewable by everyone":
`privacy = 'public' OR creator_id = auth.uid()`. -/
def studyGroupsSelectPolicy (actor : Option UserId) (row : StudyGroup) : Bool :=
  row.privacy == Privacy.public_ || actor == some row.creator_id

/-- Policy "Users can join groups" (INSERT on `group_members`):
`WITH CHECK (auth.uid() = user_id)`. -/
def groupMembersInsertPolicy (actor : Option UserId) (row : GroupMember) : Bool :=
  actor == some row.user_id

/-- Policy "Group members can view messages" (`src/unnamed/part_001`):
`EXISTS (SELECT 1 FROM group_members gm WHERE gm.group_id = messages.group_id
AND gm.user_id = auth.uid())`. -/
def messagesSelectPolicy (actor : Option UserId) (group_members : List GroupMember)
    (row : Message) : Bool :=
  group_members.any (fun gm => gm.group_id == row.group_id && actor == some gm.user_id)

/-! Spec-side readings of the two read rules of claim C5, written from the
spec's words to compare with the policies translated from the SQL. -/

/-- Modelled from the spec: "read → allow if privacy == public OR
actor.id == creator_id". -/
def SpecGroupReadable (actor : Option UserId) (g : StudyGroup) : Prop :=
  g.privacy = Privacy.public_ ∨ actor = some g.creator_id

/-- Modelled from the spec: the actor "is a member of the message's group". -/
def SpecIsMember (actor : Option UserId) (gid : GId)
    (group_members : List GroupMember) : Prop :=
  ∃ gm ∈ group_members, gm.group_id = gid ∧ actor = some gm.user_id

/-- C5: the StudyGroup read policy allows exactly public groups or the
actor's own groups; anonymous actors read exactly the public groups; the
Message read policy allows exactly the members of the message's group. -/
theorem c5_read_policies (actor : Option UserId) (g : StudyGroup)
    (group_members : List GroupMember) (m : Message) :
    (studyGroupsSelectPolicy actor g = true ↔ SpecGroupReadable actor g) ∧
    (studyGroupsSelectPolicy none g = true ↔ g.privacy = Privacy.public_) ∧
    (messagesSelectPolicy actor group_members m = true ↔
      SpecIsMember actor m.group_id group_members) := by
  refine ⟨?_, ?_, ?_⟩
  · simp [studyGroupsSelectPolicy, SpecGroupReadable]
  · simp [studyGroupsSelectPolicy]
  · simp only [messagesSelectPolicy, SpecIsMember, List.any_eq_true,
      Bool.and_eq_true, beq_iff_eq]

/-- C10: the `group_members` insert policy checks exactly that the actor is
the row's `user_id`; in particular a self-enrollment with any role (admin
included) into any group whatsoever is allowed, the target group's privacy
never being consulted (the policy does not even read the group). -/
theorem c10_join_policy_self_only (actor : Option UserId) (row : GroupMember)
    (u : UserId) (gid : GId) (role : Role) (g : StudyGroup) :
    (groupMembersInsertPolicy actor row = true ↔ actor = some row.user_id) ∧
    groupMembersInsertPolicy (some u) { group_id := gid, user_id := u, role := role } = true ∧
    groupMembersInsertPolicy (some u) { group_id := g.id, user_id := u, role := Role.admin } = true := by
  refine ⟨?_, ?_, ?_⟩
  · simp [groupMembersInsertPolicy]
  · simp [groupMembersInsertPolicy]
  · simp [groupMembersInsertPolicy]

/-! ## Answer acceptance (`acceptAnswer`, `src/pages/QuestionDetail.tsx`)

The client function performs three sequential UPDATE statements:
`is_accepted = false` on the answers with `question_id = id` (the route id),
then `is_accepted = true` on the answer with `id = answerId`, then
`is_resolved = true` on the question with `id = id`. The statements run
through the supabase client with the signed-in user's credentials, so each
UPDATE is row-filtered by the table's RLS policy: a row is modified only
when both the statement's own `eq` filter and the owner-only update policy
accept it. The function writes nothing else: no notification row, no badge,
no point change. The state groups the tables the page can touch. -/

structure AppState where
  questions : List Question
  answers : List Answer
  notifications : List Notification
  user_badges : List UserBadge
deriving DecidableEq

/-- Effect on one answer row of `update answers set is_accepted = false where
question_id = routeId`, executed by `actor`: the RLS policy adds the implicit
conjunct `user_id = auth.uid()`, so only the actor's own answers of the
question are cleared. -/
def clearAccepted (actor : Option UserId) (routeId : QId) (a : Answer) : Answer :=
  if a.question_id == routeId && answersUpdatePolicy actor a then
    { a with is_accepted := false }
  else a

/-- Effect on one answer row of `update answers set is_accepted = true where
id = answerId`, executed by `actor`: under the RLS owner filter the write
reaches the row only when the actor authored the answer — for any other
author's answer it matches zero rows. -/
def markAccepted (actor : Option UserId) (answerId : AId) (a : Answer) : Answer :=
  if a.id == answerId && answersUpdatePolicy actor a then
    { a with is_accepted := true }
  else a

/-- Effect on one question row of `update questions set is_resolved = true
where id = routeId`, executed by `actor`, filtered by the owner-only
questions UPDATE policy. -/
def markResolved (actor : Option UserId) (routeId : QId) (q : Question) : Question :=
  if q.id == routeId && questionsUpdatePolicy actor q then
    { q with is_resolved := true }
  else q

/-- `acceptAnswer` from `QuestionDetail.tsx` lines 158-189. `user` and
`question` are the page's client state (the guard returns early when either
is missing or the actor is not the question's owner); `routeId` is the `id`
route parameter used in the `eq` filters; the three updates run as the
signed-in user `u` and are therefore RLS-filtered by `u`. -/
def acceptAnswer (user : Option UserId) (question : Option Question)
    (routeId : QId) (answerId : AId) (s : AppState) : AppState :=
  match user, question with
  | some u, some q =>
    if q.user_id = u then
      { s with
        answers := (s.answers.map (clearAccepted (some u) routeId)).map
          (markAccepted (some u) answerId),
        questions := s.questions.map (markResolved (some u) routeId) }
    else s
  | _, _ => s

/-- `answers_accepted` count of `fetchUserStats` in `Profile.tsx`: the number
of `answers` rows with this `user_id` and `is_accepted = true`. -/
def answersAcceptedCount (uid : UserId) (answers : List Answer) : Nat :=
  (answers.filter (fun a => a.user_id == uid && a.is_accepted)).length

/-! ## Concrete fixtures for witnesses and counterexamples -/

/-- User 1 owns question 1 (unresolved). -/
def q1 : Question :=
  { id := 1, user_id := 1, title := "t", content := "c",
    difficulty := Difficulty.medium, view_count := 0, upvotes := 0, is_resolved := false }

/-- Answer 10 to question 1, written by user 2. -/
def ansR1 : Answer :=
  { id := 10, question_id := 1, user_id := 2, content := "r1",
    upvotes := 0, downvotes := 0, is_accepted := false }

/-- Answer 11 to question 1, written by user 3. -/
def ansR2 : Answer :=
  { id := 11, question_id := 1, user_id := 3, content := "r2",
    upvotes := 0, downvotes := 0, is_accepted := false }

/-- Initial state: one question, two answers, no notifications, no badges. -/
def s0 : AppState :=
  { questions := [q1], answers := [ansR1, ansR2], notifications := [], user_badges := [] }

/-- Answer 12 to question 1, written by user 1 — the question's own asker. -/
def ansSelf : Answer :=
  { id := 12, question_id := 1, user_id := 1, content := "self",
    upvotes := 0, downvotes := 0, is_accepted := false }

/-- C1 fails on the code: user 1, the owner of question 1, accepts answer 10
— authored by user 2 — but the owner-only answers UPDATE policy filters the
`is_accepted = true` write down to zero rows, so the answers table is
unchanged (answer 10 stays unaccepted) while the question still becomes
resolved; the subsequent accept of answer 11 no-ops the same way. The write
is blocked exactly because `answersUpdatePolicy` rejects actor 1 on user 2's
row; had the asker authored the answer themselves (answer 12), the same
operation would mark it. -/
theorem c1_accept_rls_noop :
    (acceptAnswer (some 1) (some q1) 1 10 s0).answers = [ansR1, ansR2] ∧
    ansR1.is_accepted = false ∧
    (acceptAnswer (some 1) (some q1) 1 10 s0).questions =
      [{ q1 with is_resolved := true }] ∧
    (acceptAnswer (some 1) (some q1) 1 11
        (acceptAnswer (some 1) (some q1) 1 10 s0)).answers = [ansR1, ansR2] ∧
    answersUpdatePolicy (some 1) ansR1 = false ∧
    (acceptAnswer (some 1) (some q1) 1 12
        { s0 with answers := s0.answers ++ [ansSelf] }).answers =
      [ansR1, ansR2, { ansSelf with is_accepted := true }] := by
  decide

/-- C2 fails on the code: user 1 accepts answer 10 (written by user 2); the
resulting state holds no notification at all — in particular none of type
`answer_accepted` for user 2 — and no badge row, because `acceptAnswer`
issues only the three answer / question updates; user 2's accepted-answer
count even stays 0, the accepted-flag write itself being RLS-filtered away. -/
theorem c2_counterexample :
    (acceptAnswer (some 1) (some q1) 1 10 s0).notifications = [] ∧
    (acceptAnswer (some 1) (some q1) 1 10 s0).user_badges = [] ∧
    (¬ ∃ n ∈ (acceptAnswer (some 1) (some q1) 1 10 s0).notifications,
        n.type = NotificationType.answer_accepted ∧ n.user_id = 2) ∧
    answersAcceptedCount 2 (acceptAnswer (some 1) (some q1) 1 10 s0).answers = 0 := by
  decide

/-- C2 amended: whatever rows its three RLS-filtered answer / question
updates reach, the accept operation never creates a notification row and
never changes the user-badge set (the repository has no notification-creation
or badge-award code path at all), so no gamification recompute is triggered. -/
theorem c2_accept_no_side_records (user : Option UserId) (question : Option Question)
    (routeId : QId) (answerId : AId) (s : AppState) :
    (acceptAnswer user question routeId answerId s).notifications = s.notifications ∧
    (acceptAnswer user question routeId answerId s).user_badges = s.user_badges := by
  cases user <;> cases question <;> simp only [acceptAnswer] <;> (try split) <;>
    simp

/-- C3 fails on the code: the only UPDATE policies on `questions` and
`answers` are the owner-only ones, so an authenticated non-owner (user 2 for
question 1; user 1 for answer 10, owned by user 2) is denied every update —
the view-count and upvote writes included — while the owner is allowed. -/
theorem c3_counter_updates_owner_only :
    questionsUpdatePolicy (some 2) q1 = false ∧
    questionsUpdatePolicy (some 1) q1 = true ∧
    answersUpdatePolicy (some 1) ansR1 = false ∧
    answersUpdatePolicy (some 2) ansR1 = true := by
  decide

/-! ## Group joining (`joinGroup`, `src/pages/StudyGroups.tsx`) -/

/-- Result of the `group_members` insert as the store executes it. -/
inductive JoinOutcome
  | ok (group_members : List GroupMember)
  | uniqueViolation
  | rlsViolation
  | noop
deriving DecidableEq

/-- INSERT into `group_members`: rejected when the RLS insert policy fails,
rejected when the `UNIQUE(group_id, user_id)` constraint is violated,
appended otherwise. The table has no other constraint: nothing compares the
member count with `study_groups.max_members`. -/
def insertGroupMember (actor : Option UserId) (row : GroupMember)
    (group_members : List GroupMember) : JoinOutcome :=
  if groupMembersInsertPolicy actor row then
    if group_members.any (fun m => m.group_id == row.group_id && m.user_id == row.user_id) then
      JoinOutcome.uniqueViolation
    else
      JoinOutcome.ok (group_members ++ [row])
  else JoinOutcome.rlsViolation

/-- `joinGroup` from `StudyGroups.tsx` lines 61-78: returns early when no
user is signed in, otherwise inserts `{group_id, user_id: user.id, role:
'member'}`. It reads neither the group row nor `max_members`. -/
def joinGroup (user : Option UserId) (groupId : GId)
    (group_members : List GroupMember) : JoinOutcome :=
  match user with
  | none => JoinOutcome.noop
  | some u => insertGroupMember (some u)
      { group_id := groupId, user_id := u, role := Role.member } group_members

/-- Member count of one group, as displayed by the page. -/
def memberCount (gid : GId) (group_members : List GroupMember) : Nat :=
  (group_members.filter (fun m => m.group_id == gid)).length

/-- Group 5 with `max_members = 2`. -/
def gFull : StudyGroup :=
  { id := 5, name := "Algebra Club", creator_id := 1, max_members := 2,
    privacy := Privacy.public_ }

/-- Group 5 already holds its maximum of two members. -/
def gFullMembers : List GroupMember :=
  [{ group_id := 5, user_id := 1, role := Role.admin },
   { group_id := 5, user_id := 2, role := Role.member }]

/-- C4 fails on the code: group 5 is at its cap of 2, yet user 3's join
succeeds and the member count silently becomes 3 > `max_members`. -/
theorem c4_counterexample :
    memberCount gFull.id gFullMembers = gFull.max_members ∧
    joinGroup (some 3) gFull.id gFullMembers =
      JoinOutcome.ok (gFullMembers ++ [{ group_id := 5, user_id := 3, role := Role.member }]) ∧
    memberCount gFull.id
        (gFullMembers ++ [{ group_id := 5, user_id := 3, role := Role.member }])
      = gFull.max_members + 1 := by
  decide

/-- C4 amended: the join operation never consults `max_members` — a signed-in
user who is not yet a member is always appended, whatever the current count,
and the only conflict outcome is the duplicate-membership uniqueness
violation. -/
theorem c4_join_ignores_cap (u : UserId) (gid : GId)
    (group_members : List GroupMember) :
    ((∀ m ∈ group_members, ¬(m.group_id = gid ∧ m.user_id = u)) →
      joinGroup (some u) gid group_members =
        JoinOutcome.ok (group_members ++
          [{ group_id := gid, user_id := u, role := Role.member }])) ∧
    ((∃ m ∈ group_members, m.group_id = gid ∧ m.user_id = u) →
      joinGroup (some u) gid group_members = JoinOutcome.uniqueViolation) := by
  constructor
  · intro hnew
    simp only [joinGroup, insertGroupMember, groupMembersInsertPolicy, if_pos,
      beq_self_eq_true, if_true]
    rw [if_neg]
    simp only [List.any_eq_true, Bool.and_eq_true, beq_iff_eq, not_exists]
    rintro m ⟨hm, h1, h2⟩
    exact hnew m hm ⟨h1, h2⟩
  · intro hdup
    simp only [joinGroup, insertGroupMember, groupMembersInsertPolicy, if_pos,
      beq_self_eq_true, if_true]
    rw [if_pos]
    simp only [List.any_eq_true, Bool.and_eq_true, beq_iff_eq]
    obtain ⟨m, hm, h1, h2⟩ := hdup
    exact ⟨m, hm, h1, h2⟩

/-- Witness for the amended C4 at the fixture: user 3 joins the full group 5
successfully; already-member user 2 hits the uniqueness conflict. -/
theorem c4_join_ignores_cap_witness :
    joinGroup (some 3) 5 gFullMembers =
      JoinOutcome.ok (gFullMembers ++ [{ group_id := 5, user_id := 3, role := Role.member }]) ∧
    joinGroup (some 2) 5 gFullMembers = JoinOutcome.uniqueViolation :=
  ⟨(c4_join_ignores_cap 3 5 gFullMembers).1 (by decide),
   (c4_join_ignores_cap 2 5 gFullMembers).2 (by decide)⟩

/-! ## Counter increments (`incrementViewCount`, `downloadResource`) -/

/-- `incrementViewCount` from `QuestionDetail.tsx` lines 103-112: writes the
client snapshot's view count (`question?.view_count || 0`) plus one to the
question row with the route id. The page invokes it in the same mount effect
that starts loading the question, so the `question` client state is still
`null` when the write is issued. -/
def incrementViewCount (question : Option Question) (routeId : QId)
    (questions : List Question) : List Question :=
  questions.map (fun q =>
    if q.id = routeId then
      { q with view_count := (match question with
          | some qq => qq.view_count
          | none => 0) + 1 }
    else q)

/-- `downloadResource` from `src/unnamed/part_004` lines 62-79: looks the
resource up in the client list and writes that snapshot's download count plus
one to the stored row. -/
def downloadResource (resources : List Resource) (resourceId : Nat)
    (db : List Resource) : List Resource :=
  match resources.find? (fun r => r.id == resourceId) with
  | some r => db.map (fun x =>
      if x.id = resourceId then { x with download_count := r.download_count + 1 } else x)
  | none => db

/-- Question 7 whose stored view count is 5. -/
def qViewed : Question :=
  { id := 7, user_id := 1, title := "t", content := "c",
    difficulty := Difficulty.easy, view_count := 5, upvotes := 0, is_resolved := false }

/-- Resource 3 whose stored download count is 7. -/
def rStored : Resource :=
  { id := 3, user_id := 1, title := "notes", download_count := 7 }

/-- C6 fails on the code: visiting question 7 (stored view count 5) before
the client state is populated writes view count 1 — a smaller value than the
one stored. The download counter, computed from a fresh snapshot, does write
stored + 1 here, but the view-count write is not monotonic. -/
theorem c6_view_count_decreases :
    incrementViewCount none 7 [qViewed] = [{ qViewed with view_count := 1 }] ∧
    (1 : Nat) < qViewed.view_count ∧
    downloadResource [rStored] 3 [rStored] = [{ rStored with download_count := 8 }] := by
  decide

/-! ## Badge progress (`getProgressToNextBadge`, `src/pages/Profile.tsx`) -/

/-- The `userStats` record of `Profile.tsx` (it has no `points` key). -/
structure UserStats where
  questions_asked : Nat
  answers_given : Nat
  answers_accepted : Nat
  resources_shared : Nat
deriving DecidableEq

/-- The lookup `userStats[badge.requirement_type as keyof UserStats]`: for a
`points` badge the record has no such key, so the lookup is `undefined`. -/
def statsLookup (userStats : UserStats) (t : ReqType) : Option Nat :=
  match t with
  | ReqType.points => none
  | ReqType.questions_asked => some userStats.questions_asked
  | ReqType.answers_given => some userStats.answers_given
  | ReqType.answers_accepted => some userStats.answers_accepted
  | ReqType.resources_shared => some userStats.resources_shared

/-- JavaScript `x || y` on an optional number: `undefined` and `0` are both
falsy, so both fall through to `y`. -/
def jsOrNat (x : Option Nat) (y : Nat) : Nat :=
  match x with
  | some n => if n = 0 then y else n
  | none => y

/-- `getProgressToNextBadge` from `Profile.tsx` lines 240-243:
`const currentValue = userStats[badge.requirement_type] || profile?.points || 0;
return Math.min((currentValue / badge.requirement_value) * 100, 100)`. -/
def getProgressToNextBadge (userStats : UserStats) (profile : Option Profile)
    (badge : Badge) : ℚ :=
  let currentValue : Nat :=
    jsOrNat (statsLookup userStats badge.requirement_type)
      (jsOrNat (Option.map Profile.points profile) 0)
  min (((currentValue : ℚ) / (badge.requirement_value : ℚ)) * 100) 100

/-- The current value the same page renders beside the bar (`Profile.tsx`
lines 472-474), a ternary on `requirement_type`:
`badge.requirement_type === 'points' ? profile.points : userStats[...] || 0`. -/
def renderedCurrentValue (userStats : UserStats) (profile : Profile)
    (badge : Badge) : Nat :=
  match badge.requirement_type with
  | ReqType.points => profile.points
  | t => jsOrNat (statsLookup userStats t) 0

/-- Modelled from the spec: the metric named by `requirement_type`, read from
the point total for `points` and from the matching activity count otherwise. -/
def specCurrentMetric (userStats : UserStats) (points : Nat) (t : ReqType) : Nat :=
  match t with
  | ReqType.points => points
  | ReqType.questions_asked => userStats.questions_asked
  | ReqType.answers_given => userStats.answers_given
  | ReqType.answers_accepted => userStats.answers_accepted
  | ReqType.resources_shared => userStats.resources_shared

/-- Modelled from the spec: displayed progress for a not-yet-earned badge is
`min(current / threshold, 1.0)`, here scaled to a percentage. -/
def specBadgeProgress (userStats : UserStats) (points : Nat) (badge : Badge) : ℚ :=
  min ((specCurrentMetric userStats points badge.requirement_type : ℚ)
    / (badge.requirement_value : ℚ)) 1 * 100

/-- Badge catalog row "First Question" (`questions_asked`, threshold 1). -/
def firstQuestion : Badge :=
  { name := "First Question", requirement_type := ReqType.questions_asked,
    requirement_value := 1 }

/-- A user who has asked no questions yet. -/
def zeroStats : UserStats :=
  { questions_asked := 0, answers_given := 0, answers_accepted := 0,
    resources_shared := 0 }

/-- The same user's profile holding 100 points. -/
def profRich : Profile := { user_id := 2, full_name := "B", points := 100 }

/-- C7 fails on the code: for the unearned "First Question" badge and a user
with 0 questions asked but 100 points, the rendered progress bar shows 100%
(the JavaScript or-chain treats the 0 count as falsy and falls back to the
point total), while the spec formula gives 0% — matching the 0/1 label the
very same page renders beside the bar. -/
theorem c7_progress_zero_count_falls_back_to_points :
    getProgressToNextBadge zeroStats (some profRich) firstQuestion = 100 ∧
    specBadgeProgress zeroStats profRich.points firstQuestion = 0 ∧
    renderedCurrentValue zeroStats profRich firstQuestion = 0 ∧
    specCurrentMetric zeroStats profRich.points firstQuestion.requirement_type = 0 ∧
    getProgressToNextBadge zeroStats (some profRich) firstQuestion ≠
      specBadgeProgress zeroStats profRich.points firstQuestion := by
  refine ⟨?_, ?_, by decide, by decide, ?_⟩
  · simp only [getProgressToNextBadge, jsOrNat, statsLookup, zeroStats, profRich,
      firstQuestion, Option.map]
    norm_num
  · simp only [specBadgeProgress, specCurrentMetric, zeroStats, profRich,
      firstQuestion]
    norm_num
  · simp only [getProgressToNextBadge, specBadgeProgress, jsOrNat, statsLookup,
      specCurrentMetric, zeroStats, profRich, firstQuestion, Option.map]
    norm_num

/-! ## Chat retrieval (`fetchMessages`, GroupDetail page in
`src/pages/Profile.tsx` lines 720-768) -/

/-- Ascending creation-time order of the chat query. -/
def msgLe (a b : Message) : Prop := a.created_at ≤ b.created_at

instance : DecidableRel msgLe := fun a b =>
  inferInstanceAs (Decidable (a.created_at ≤ b.created_at))

instance : IsTotal Message msgLe := ⟨fun a b => Nat.le_total a.created_at b.created_at⟩

instance : IsTrans Message msgLe := ⟨fun _ _ _ h1 h2 => Nat.le_trans h1 h2⟩

/-- The GroupDetail chat query: rows with `group_id = id`, ordered by
`created_at` ascending, `limit(50)` — the first fifty rows of the ascending
order. -/
def fetchMessages (groupId : GId) (messages : List Message) : List Message :=
  (List.insertionSort msgLe (messages.filter (fun m => m.group_id == groupId))).take 50

/-- Fifty-one messages of group 1, created at times 0..50. -/
def db51 : List Message :=
  (List.range 51).map (fun i =>
    { id := i, group_id := 1, user_id := 1, content := "m",
      message_type := "text", created_at := i })

/-- C8 fails on the code: with 51 messages in the group the query returns 50
of them, but the newest message (created at time 50) is not among them while
the oldest (time 0) is — the window is the oldest fifty, not the most recent
fifty. -/
theorem c8_counterexample :
    (db51.filter (fun m => m.group_id == 1)).length = 51 ∧
    (fetchMessages 1 db51).length = 50 ∧
    (fetchMessages 1 db51).any (fun m => m.created_at == 50) = false ∧
    (fetchMessages 1 db51).any (fun m => m.created_at == 0) = true := by
  decide

/-- C8 amended: the initial chat retrieval returns a window of at most 50
messages of the group, ascending by creation time, and the window consists of
the oldest messages — every message left out of the window was created no
earlier than everything in it. -/
theorem c8_window_is_oldest_fifty (groupId : GId) (messages : List Message) :
    List.Sorted msgLe (fetchMessages groupId messages) ∧
    (fetchMessages groupId messages).length =
      min 50 (messages.filter (fun m => m.group_id == groupId)).length ∧
    ∀ x ∈ fetchMessages groupId messages,
      ∀ y ∈ messages.filter (fun m => m.group_id == groupId),
        y ∉ fetchMessages groupId messages → x.created_at ≤ y.created_at := by
  have hsorted : List.Sorted msgLe
      (List.insertionSort msgLe (messages.filter (fun m => m.group_id == groupId))) :=
    List.sorted_insertionSort msgLe _
  have hperm := List.perm_insertionSort msgLe
    (messages.filter (fun m => m.group_id == groupId))
  refine ⟨?_, ?_, ?_⟩
  · exact List.Pairwise.sublist (List.take_sublist _ _) hsorted
  · rw [fetchMessages, List.length_take, hperm.length_eq]
  · intro x hx y hy hyn
    have hymem : y ∈ List.insertionSort msgLe
        (messages.filter (fun m => m.group_id == groupId)) := hperm.mem_iff.mpr hy
    rw [← List.take_append_drop 50
      (List.insertionSort msgLe (messages.filter (fun m => m.group_id == groupId)))]
      at hymem hsorted
    have hydrop : y ∈ (List.insertionSort msgLe
        (messages.filter (fun m => m.group_id == groupId))).drop 50 := by
      rcases List.mem_append.mp hymem with h | h
      · exact absurd h hyn
      · exact h
    exact (List.pairwise_append.mp hsorted).2.2 x hx y hydrop

/-! ## Suggestion proxy (`src/unnamed/part_000`)

The Deno `serve` callback, embedded as a pure function. The upstream
completion call and `JSON.parse` are external: the handler is parametrized by
`fetchCompletion` (either the completion text `data.choices[0].message.content`
or a thrown error's message — network failure and response-shape failure
alike) and by `jsonParse` (`some v` when `JSON.parse` succeeds, `none` when it
throws). `req.json()` is likewise an `Except`: `.error m` models a body whose
parsing rejects with message `m`. -/

/-- Parsed JSON body `{type, content, subject}` of the POST request. -/
structure SuggestReqBody where
  type : String
  content : String
  subject : Option String
deriving DecidableEq

/-- An incoming request: its HTTP method and the outcome of `req.json()`. -/
structure SuggestRequest where
  method : String
  body : Except String SuggestReqBody

/-- Outcome of the upstream completion call. -/
inductive UpstreamResult
  | ok (content : String)
  | err (message : String)
deriving DecidableEq

/-- The suggestion sent back: the parsed structured value, or the plain-text
fallback wrapper `\x7b content: suggestion \x7d`. -/
inductive Suggestion
  | structured (value : String)
  | plain (content : String)
deriving DecidableEq

/-- The three response shapes of the handler. -/
inductive ProxyResponse
  | preflight
  | success (suggestion : Suggestion)
  | failure (error : String)
deriving DecidableEq

/-- HTTP status of each response: the preflight `Response(null, ...)` and the
success response carry the default status 200; the error response is built
with `status: 500`. -/
def responseStatus : ProxyResponse → Nat
  | ProxyResponse.preflight => 200
  | ProxyResponse.success _ => 200
  | ProxyResponse.failure _ => 500

/-- JavaScript `s || 'General'` on the optional subject: `undefined` and the
empty string are both falsy. -/
def jsOrStr (x : Option String) (y : String) : String :=
  match x with
  | some s => if s = "" then y else s
  | none => y

/-- The `switch (type)` building one of the three fixed prompt templates;
`none` models the `default` branch throwing Error('Invalid suggestion type'). -/
def buildPrompt (type content : String) (subject : Option String) : Option String :=
  if type = "question-improvement" then
    some ("As an educational assistant, help improve this question for clarity and learning effectiveness:\n\nQuestion: \""
      ++ content ++ "\"\nSubject: " ++ jsOrStr subject "General"
      ++ "\n\nPlease provide:\n1. An improved version of the question with better clarity\n2. 3 related follow-up questions that would deepen understanding\n3. Suggested tags or topics this question covers\n\nFormat your response as JSON with keys: improvedQuestion, followUpQuestions, suggestedTags")
  else if type = "answer-hints" then
    some ("As an educational tutor, provide helpful hints for this question without giving away the full answer:\n\nQuestion: \""
      ++ content ++ "\"\nSubject: " ++ jsOrStr subject "General"
      ++ "\n\nProvide 3 progressive hints that guide the student toward understanding, starting with the most general approach and becoming more specific. Format as JSON with key: hints (array of strings)")
  else if type = "study-plan" then
    some ("Create a personalized study plan for this topic:\n\nTopic: \""
      ++ content ++ "\"\nSubject: " ++ jsOrStr subject "General"
      ++ "\n\nProvide a structured study plan with:\n1. Key concepts to understand\n2. Recommended study sequence\n3. Practice activities\n4. Time estimates for each section\n\nFormat as JSON with keys: concepts, sequence, activities, timeEstimates")
  else none

/-- The `serve` callback of `src/unnamed/part_000`: answer `OPTIONS` with the
bare CORS response; otherwise run the try block — parse the body, build the
prompt, call upstream, try `JSON.parse` on the completion with the plain-text
fallback — and turn any thrown error into the 500 failure response. -/
def serveHandler (jsonParse : String → Option String)
    (fetchCompletion : String → UpstreamResult)
    (req : SuggestRequest) : ProxyResponse :=
  if req.method = "OPTIONS" then ProxyResponse.preflight
  else
    match req.body with
    | Except.error m => ProxyResponse.failure m
    | Except.ok b =>
      match buildPrompt b.type b.content b.subject with
      | none => ProxyResponse.failure "Invalid suggestion type"
      | some prompt =>
        match fetchCompletion prompt with
        | UpstreamResult.err m => ProxyResponse.failure m
        | UpstreamResult.ok suggestion =>
          match jsonParse suggestion with
          | some v => ProxyResponse.success (Suggestion.structured v)
          | none => ProxyResponse.success (Suggestion.plain suggestion)

/-- C9: an OPTIONS request gets the empty 200 preflight; a POST whose type is
valid and whose upstream call succeeds gets a 200 success response carrying
the parsed completion, or the plain-text wrapper when parsing fails; each of
the failure events — a rejected request body, an invalid suggestion type
(exactly the types outside the three of the switch), a failed upstream call —
produces the 500 failure response carrying that error's message; a failure
response always has status 500; and the handler always returns one of the
200 or 500 responses, never escaping. -/
theorem c9_proxy_responses (jsonParse : String → Option String)
    (fetchCompletion : String → UpstreamResult) (req : SuggestRequest) :
    (req.method = "OPTIONS" →
      serveHandler jsonParse fetchCompletion req = ProxyResponse.preflight ∧
      responseStatus (serveHandler jsonParse fetchCompletion req) = 200) ∧
    (∀ b prompt s, req.method ≠ "OPTIONS" → req.body = Except.ok b →
      buildPrompt b.type b.content b.subject = some prompt →
      fetchCompletion prompt = UpstreamResult.ok s →
      serveHandler jsonParse fetchCompletion req =
        ProxyResponse.success (match jsonParse s with
          | some v => Suggestion.structured v
          | none => Suggestion.plain s) ∧
      responseStatus (serveHandler jsonParse fetchCompletion req) = 200) ∧
    (∀ m, req.method ≠ "OPTIONS" → req.body = Except.error m →
      serveHandler jsonParse fetchCompletion req = ProxyResponse.failure m ∧
      responseStatus (serveHandler jsonParse fetchCompletion req) = 500) ∧
    (∀ b, req.method ≠ "OPTIONS" → req.body = Except.ok b →
      buildPrompt b.type b.content b.subject = none →
      serveHandler jsonParse fetchCompletion req =
        ProxyResponse.failure "Invalid suggestion type" ∧
      responseStatus (serveHandler jsonParse fetchCompletion req) = 500) ∧
    (∀ b prompt m, req.method ≠ "OPTIONS" → req.body = Except.ok b →
      buildPrompt b.type b.content b.subject = some prompt →
      fetchCompletion prompt = UpstreamResult.err m →
      serveHandler jsonParse fetchCompletion req = ProxyResponse.failure m ∧
      responseStatus (serveHandler jsonParse fetchCompletion req) = 500) ∧
    (∀ t c subj, buildPrompt t c subj = none ↔
      t ≠ "question-improvement" ∧ t ≠ "answer-hints" ∧ t ≠ "study-plan") ∧
    (∀ e, serveHandler jsonParse fetchCompletion req = ProxyResponse.failure e →
      responseStatus (serveHandler jsonParse fetchCompletion req) = 500) ∧
    (responseStatus (serveHandler jsonParse fetchCompletion req) = 200 ∨
      responseStatus (serveHandler jsonParse fetchCompletion req) = 500) := by
  refine ⟨?_, ?_, ?_, ?_, ?_, ?_, ?_, ?_⟩
  · intro hm
    rw [serveHandler, if_pos hm]
    exact ⟨rfl, rfl⟩
  · intro b prompt s hm hb hp hf
    rw [serveHandler, if_neg hm, hb]
    simp only [hp, hf]
    cases jsonParse s <;> exact ⟨rfl, rfl⟩
  · intro m hm hb
    have h : serveHandler jsonParse fetchCompletion req = ProxyResponse.failure m := by
      rw [serveHandler, if_neg hm, hb]
    exact ⟨h, by rw [h]; rfl⟩
  · intro b hm hb hp
    have h : serveHandler jsonParse fetchCompletion req =
        ProxyResponse.failure "Invalid suggestion type" := by
      rw [serveHandler, if_neg hm, hb]
      simp only [hp]
    exact ⟨h, by rw [h]; rfl⟩
  · intro b prompt m hm hb hp hf
    have h : serveHandler jsonParse fetchCompletion req = ProxyResponse.failure m := by
      rw [serveHandler, if_neg hm, hb]
      simp only [hp, hf]
    exact ⟨h, by rw [h]; rfl⟩
  · intro t c subj
    rw [buildPrompt]
    split_ifs with h1 h2 h3 <;> simp_all
  · intro e he
    rw [he]
    rfl
  · rcases h : serveHandler jsonParse fetchCompletion req with _ | sug | e
    · exact Or.inl rfl
    · exact Or.inl rfl
    · exact Or.inr rfl

/-- A JSON parse that always fails, for the witness. -/
def jsonParseNone : String → Option String := fun _ => none

/-- An upstream that always answers with the completion text "hi". -/
def fetchHi : String → UpstreamResult := fun _ => UpstreamResult.ok "hi"

/-- An upstream whose call throws with message "boom". -/
def fetchBoom : String → UpstreamResult := fun _ => UpstreamResult.err "boom"

/-- Witness for C9: the preflight, success-with-fallback, rejected-body,
invalid-type and upstream-error branches at concrete requests. -/
theorem c9_proxy_responses_witness :
    serveHandler jsonParseNone fetchHi { method := "OPTIONS", body := Except.error "x" } =
      ProxyResponse.preflight ∧
    serveHandler jsonParseNone fetchHi
        { method := "POST", body := Except.ok { type := "study-plan", content := "sets", subject := none } } =
      ProxyResponse.success (Suggestion.plain "hi") ∧
    serveHandler jsonParseNone fetchHi { method := "POST", body := Except.error "bad json" } =
      ProxyResponse.failure "bad json" ∧
    serveHandler jsonParseNone fetchHi
        { method := "POST", body := Except.ok { type := "zzz", content := "c", subject := none } } =
      ProxyResponse.failure "Invalid suggestion type" ∧
    responseStatus (serveHandler jsonParseNone fetchHi
        { method := "POST", body := Except.ok { type := "zzz", content := "c", subject := none } }) = 500 ∧
    serveHandler jsonParseNone fetchBoom
        { method := "POST", body := Except.ok { type := "answer-hints", content := "c", subject := some "Math" } } =
      ProxyResponse.failure "boom" :=
  ⟨(c9_proxy_responses jsonParseNone fetchHi
      { method := "OPTIONS", body := Except.error "x" }).1 rfl |>.1,
   ((c9_proxy_responses jsonParseNone fetchHi
      { method := "POST", body := Except.ok { type := "study-plan", content := "sets", subject := none } }).2.1
      { type := "study-plan", content := "sets", subject := none } _ "hi"
      (by decide) rfl rfl rfl).1,
   ((c9_proxy_responses jsonParseNone fetchHi
      { method := "POST", body := Except.error "bad json" }).2.2.1
      "bad json" (by decide) rfl).1,
   ((c9_proxy_responses jsonParseNone fetchHi
      { method := "POST", body := Except.ok { type := "zzz", content := "c", subject := none } }).2.2.2.1
      { type := "zzz", content := "c", subject := none } (by decide) rfl (by decide)).1,
   ((c9_proxy_responses jsonParseNone fetchHi
      { method := "POST", body := Except.ok { type := "zzz", content := "c", subject := none } }).2.2.2.1
      { type := "zzz", content := "c", subject := none } (by decide) rfl (by decide)).2,
   ((c9_proxy_responses jsonParseNone fetchBoom
      { method := "POST", body := Except.ok { type := "answer-hints", content := "c", subject := some "Math" } }).2.2.2.2.1
      { type := "answer-hints", content := "c", subject := some "Math" } _ "boom"
      (by decide) rfl rfl rfl).1⟩

end StudyCircle
